import Mathlib

/-!
Shallow embedding of the Streamlit `AudioInput` widget
(`src/frontend/lib/src/components/widgets/AudioInput/AudioInput.tsx`), the
media-capture-and-upload coordinator specified in `spec.md`.

The React component is a single-threaded event-driven state machine: every
`useState` hook becomes a field of `CoordinatorState`, every user action or
backend callback becomes an `Event`, and the handler bodies are translated
into the pure transition function `step`.  A few instrumentation fields
record the externally visible side effects the spec talks about: object-URL
creation and revocation (`nextUrlId`, `revokedUrls`), deletion requests sent
to the upload client (`deletedFiles`), the widget-state reset call
(`widgetClearCount`), and the number of unsettled upload promises
(`pendingUploads`).
-/

namespace AudioInputSpec

/-- Modelled from the spec: `STARTING_TIME_STRING` lives in `constants.ts`,
which is not under `src/`; the spec fixes the initial time code as "00:00"
("duration displays reset to \x2200:00\x22"). -/
def STARTING_TIME_STRING : String := "00:00"

/-- Modelled from the spec: `formatTime` (`formatTime.ts` is not under
`src/`) renders a millisecond count as an `mm:ss` time code (the beyond-one-
hour variant is an external-collaborator concern the claims never touch). -/
def formatTime (ms : Nat) : String :=
  let totalSecs := ms / 1000
  let mins := totalSecs / 60
  let secs := totalSecs % 60
  (if mins < 10 then "0" ++ toString mins else toString mins) ++ ":" ++
    (if secs < 10 then "0" ++ toString secs else toString secs)

/-- JavaScript truthiness of a nullable string (`null`/`undefined` and the
empty string are falsy), used by the guards `!activeAudioDeviceId`,
`upload.fileUrl.deleteUrl` and the `deleteFileUrl && ...` render guard. -/
def jsTruthyStr : Option String → Bool
  | none => false
  | some s => s ≠ ""

/-- The React state of the `AudioInput` component, one field per `useState`
hook, plus instrumentation for the side effects the spec reasons about.
Object URLs are represented by the `Nat` ids `0, 1, ...` handed out by
`URL.createObjectURL`; `nextUrlId` is the next fresh id. -/
structure CoordinatorState where
  /-- whether the `getUserMedia` promise of the mount effect has settled -/
  permissionResolved : Bool
  /-- `hasNoMicPermissions` hook -/
  hasNoMicPermissions : Bool
  /-- `availableAudioDevices` hook, as the list of device ids -/
  availableAudioDevices : List String
  /-- `activeAudioDeviceId` hook -/
  activeAudioDeviceId : Option String
  /-- whether the `wavesurfer` hook holds a backend instance (non-null) -/
  wavesurfer : Bool
  /-- whether the `recordPlugin` hook holds a plugin instance (non-null) -/
  recordPlugin : Bool
  /-- `recordPlugin.isRecording()` -/
  isRecording : Bool
  /-- `recordingUrl` hook: the live object URL of the captured artifact -/
  recordingUrl : Option Nat
  /-- `deleteFileUrl` hook: the UploadHandle's deletion URL -/
  deleteFileUrl : Option String
  /-- `progressTime` hook -/
  progressTime : String
  /-- `recordingTime` hook -/
  recordingTime : String
  /-- `shouldUpdatePlaybackTime` hook -/
  shouldUpdatePlaybackTime : Bool
  /-- the waveform color last passed to `ws.setOptions` / `WaveSurfer.create` -/
  waveColor : String
  /-- `rerender` hook counter driven by `forceRerender` -/
  rerenderCount : Nat
  /-- next fresh id `URL.createObjectURL` will return -/
  nextUrlId : Nat
  /-- ids already passed to `URL.revokeObjectURL` -/
  revokedUrls : List Nat
  /-- deletion URLs passed to `uploadClient.deleteFile` -/
  deletedFiles : List String
  /-- number of `widgetMgr.setFileUploaderStateValue(element, \x7b\x7d, ...)` calls -/
  widgetClearCount : Nat
  /-- uploads handed to `uploadFiles` whose promise has not settled yet -/
  pendingUploads : Nat
deriving DecidableEq, Repr

/-- The component state right after mount, before any promise settles. -/
def initState : CoordinatorState where
  permissionResolved := false
  hasNoMicPermissions := false
  availableAudioDevices := []
  activeAudioDeviceId := none
  wavesurfer := false
  recordPlugin := false
  isRecording := false
  recordingUrl := none
  deleteFileUrl := none
  progressTime := STARTING_TIME_STRING
  recordingTime := STARTING_TIME_STRING
  shouldUpdatePlaybackTime := false
  waveColor := "primary"
  rerenderCount := 0
  nextUrlId := 0
  revokedUrls := []
  deletedFiles := []
  widgetClearCount := 0
  pendingUploads := 0

/-- The events of the coordinator: user actions, backend callbacks and
promise resolutions of `AudioInput.tsx`.  `"primary"` stands for
`theme.colors.primary`. -/
inductive Event where
  /-- the mount effect's `getUserMedia` promise resolves and
  `getAvailableAudioDevices` returns `devices` (their ids) -/
  | permGrant (devices : List String)
  /-- the mount effect's `getUserMedia` promise rejects -/
  | permDeny
  /-- `initializeWaveSurfer()` runs; `containerPresent` is whether
  `waveSurferRef.current` is non-null -/
  | initWaveSurfer (containerPresent : Bool)
  /-- the backend fires `timeupdate` with `ms` milliseconds -/
  | timeUpdate (ms : Nat)
  /-- the record plugin fires `record-progress` with `ms` milliseconds -/
  | recordProgress (ms : Nat)
  /-- `onClickPlayPause()` -/
  | clickPlayPause
  /-- `startRecording()` (with the plugin promise resolving) -/
  | startRecording
  /-- `stopRecording()`; on an actual stop the plugin fires `record-end`,
  whose handler runs synchronously after it -/
  | stopRecording
  /-- the `uploadFiles` promise resolves; each entry of `successfulUploads`
  carries its optional `fileUrl.deleteUrl` -/
  | uploadSettled (successfulUploads : List (Option String))
  /-- `handleClear()` -/
  | handleClear
deriving DecidableEq, Repr

/-- One step of the coordinator: the handler bodies of `AudioInput.tsx`
translated clause by clause. -/
def step (s : CoordinatorState) (e : Event) : CoordinatorState :=
  match e with
  | .permGrant devices =>
      -- the mount effect runs once; its promise settles at most once
      if s.permissionResolved then s
      else
        let s1 := { s with permissionResolved := true,
                           availableAudioDevices := devices }
        -- if (devices.length > 0) setActiveAudioDeviceId(devices[0].deviceId)
        match devices with
        | [] => s1
        | d :: _ => { s1 with activeAudioDeviceId := some d }
  | .permDeny =>
      if s.permissionResolved then s
      else { s with permissionResolved := true, hasNoMicPermissions := true }
  | .initWaveSurfer containerPresent =>
      -- if (waveSurferRef.current === null) return
      if containerPresent then
        { s with wavesurfer := true, recordPlugin := true,
                 waveColor := "primary" }
      else s
  | .timeUpdate ms =>
      -- ws.on("timeupdate", ...) exists only once a backend was created
      if s.wavesurfer then { s with progressTime := formatTime (ms * 1000) }
      else s
  | .recordProgress ms =>
      if s.recordPlugin then { s with recordingTime := formatTime ms }
      else s
  | .clickPlayPause =>
      -- if (wavesurfer) { wavesurfer.playPause(); setShouldUpdatePlaybackTime(true) }
      if s.wavesurfer then { s with shouldUpdatePlaybackTime := true }
      else s
  | .startRecording =>
      -- if (!recordPlugin || !activeAudioDeviceId || !wavesurfer) return
      if s.recordPlugin && jsTruthyStr s.activeAudioDeviceId && s.wavesurfer
      then
        { s with waveColor := "primary", isRecording := true,
                 rerenderCount := s.rerenderCount + 1 }
      else s
  | .stopRecording =>
      -- if (!recordPlugin) return; recordPlugin.stopRecording()
      if s.recordPlugin && s.isRecording then
        -- the plugin stops and fires record-end with the captured blob:
        -- const url = URL.createObjectURL(blob); setRecordingUrl(url);
        -- uploadTheFile(file); ws.setOptions({ waveColor: "#A5A5AA" })
        { s with isRecording := false,
                 recordingUrl := some s.nextUrlId,
                 nextUrlId := s.nextUrlId + 1,
                 pendingUploads := s.pendingUploads + 1,
                 waveColor := "#A5A5AA" }
      else s
  | .uploadSettled ups =>
      if s.pendingUploads = 0 then s
      else
        let s1 := { s with pendingUploads := s.pendingUploads - 1 }
        -- const upload = successfulUploads[0]
        -- if (upload && upload.fileUrl.deleteUrl) setDeleteFileUrl(...)
        match ups.head? with
        | some du => if jsTruthyStr du then { s1 with deleteFileUrl := du }
                     else s1
        | none => s1
  | .handleClear =>
      -- if (isNullOrUndefined(wavesurfer) || isNullOrUndefined(deleteFileUrl)) return
      match s.deleteFileUrl with
      | none => s
      | some d =>
          if s.wavesurfer then
            { s with recordingUrl := none,
                     deletedFiles := s.deletedFiles ++ [d],
                     progressTime := STARTING_TIME_STRING,
                     recordingTime := STARTING_TIME_STRING,
                     deleteFileUrl := none,
                     widgetClearCount := s.widgetClearCount + 1,
                     shouldUpdatePlaybackTime := false,
                     revokedUrls :=
                       match s.recordingUrl with
                       | some u => s.revokedUrls ++ [u]
                       | none => s.revokedUrls }
          else s

/-- Run a sequence of events from the freshly mounted component. -/
def run (events : List Event) : CoordinatorState :=
  events.foldl step initState

/-- A state the component can actually be in. -/
def Reachable (s : CoordinatorState) : Prop :=
  ∃ events, run events = s

/-- The CaptureSession status enum of the spec's data model. -/
inductive SessionStatus where
  | Idle
  | AwaitingPermission
  | NoPermission
  | Ready
  | Recording
  | Recorded
deriving DecidableEq, Repr

/-- The spec's CaptureSession status as derived from the component state:
`NoPermission` on denial, `AwaitingPermission` before the permission
promise settles, `Recording` while the plugin records, `Recorded` while a
captured artifact reference exists, `Ready` otherwise. -/
def status (s : CoordinatorState) : SessionStatus :=
  if s.hasNoMicPermissions then .NoPermission
  else if !s.permissionResolved then .AwaitingPermission
  else if s.isRecording then .Recording
  else if s.recordingUrl.isSome then .Recorded
  else .Ready

/-- The object URLs created so far and not yet revoked: the live
CapturedArtifact references. -/
def liveArtifacts (s : CoordinatorState) : List Nat :=
  (List.range s.nextUrlId).filter (fun u => !(s.revokedUrls.contains u))

/-- Whether the "Clear recording" toolbar action is rendered:
`deleteFileUrl && (<ToolbarAction ... onClick=\x7bhandleClear\x7d />)`. -/
def clearAffordanceShown (s : CoordinatorState) : Bool :=
  jsTruthyStr s.deleteFileUrl

/-- The coordinator's inductive invariant: facts that hold of every
reachable state and are preserved by every event. -/
structure Inv (s : CoordinatorState) : Prop where
  /-- the plugin exists exactly when the backend does (both are created by
  `initializeWaveSurfer`) -/
  rp_eq_ws : s.recordPlugin = s.wavesurfer
  /-- an artifact reference exists only once the backend was initialized -/
  ws_of_url : s.recordingUrl.isSome = true → s.wavesurfer = true
  /-- the current artifact reference has never been revoked -/
  url_not_revoked : ∀ u, s.recordingUrl = some u → u ∉ s.revokedUrls
  /-- the current artifact reference was actually created -/
  url_lt_next : ∀ u, s.recordingUrl = some u → u < s.nextUrlId
  /-- only created references get revoked -/
  revoked_lt_next : ∀ u ∈ s.revokedUrls, u < s.nextUrlId
  /-- a device is selected only after the permission promise resolved,
  and only on the grant branch -/
  active_resolved : s.activeAudioDeviceId.isSome = true →
    s.permissionResolved = true ∧ s.hasNoMicPermissions = false
  /-- before the permission promise settles no device is selected -/
  unresolved_active : s.permissionResolved = false →
    s.activeAudioDeviceId = none
  /-- denial implies the promise settled -/
  nomic_resolved : s.hasNoMicPermissions = true → s.permissionResolved = true
  /-- after denial no recording is ever in progress -/
  nomic_not_recording : s.hasNoMicPermissions = true → s.isRecording = false
  /-- a recording is in progress only with a selected device -/
  recording_active : s.isRecording = true →
    s.activeAudioDeviceId.isSome = true

theorem inv_init : Inv initState := by
  constructor <;> simp [initState]

theorem inv_step (s : CoordinatorState) (e : Event) (hs : Inv s) :
    Inv (step s e) := by
  obtain ⟨h1, h2, h3, h4, h5, h6, h7, h8, h9, h10⟩ := hs
  cases e with
  | permGrant devices =>
      by_cases hr : s.permissionResolved = true
      · have hstep : step s (.permGrant devices) = s := by
          simp [step, hr]
        rw [hstep]
        exact ⟨h1, h2, h3, h4, h5, h6, h7, h8, h9, h10⟩
      · have hactive : s.activeAudioDeviceId = none := h7 (by simpa using hr)
        have hmic : s.hasNoMicPermissions = false := by
          by_contra hm
          simp only [Bool.not_eq_false] at hm
          rw [h8 hm] at hr
          exact hr rfl
        have hrec : s.isRecording = false := by
          by_contra hi
          simp only [Bool.not_eq_false] at hi
          exact absurd (h10 hi) (by simp [hactive])
        cases devices with
        | nil =>
            have hstep : step s (.permGrant []) =
                { s with permissionResolved := true,
                         availableAudioDevices := [] } := by
              simp [step, hr]
            rw [hstep]
            refine ⟨h1, h2, h3, h4, h5, ?_, ?_, ?_, ?_, ?_⟩ <;>
              simp_all
        | cons d rest =>
            have hstep : step s (.permGrant (d :: rest)) =
                { s with permissionResolved := true,
                         availableAudioDevices := d :: rest,
                         activeAudioDeviceId := some d } := by
              simp [step, hr]
            rw [hstep]
            refine ⟨h1, h2, h3, h4, h5, ?_, ?_, ?_, ?_, ?_⟩ <;>
              simp_all
  | permDeny =>
      by_cases hr : s.permissionResolved = true
      · have hstep : step s .permDeny = s := by simp [step, hr]
        rw [hstep]
        exact ⟨h1, h2, h3, h4, h5, h6, h7, h8, h9, h10⟩
      · have hactive : s.activeAudioDeviceId = none := h7 (by simpa using hr)
        have hrec : s.isRecording = false := by
          by_contra hi
          simp only [Bool.not_eq_false] at hi
          exact absurd (h10 hi) (by simp [hactive])
        have hstep : step s .permDeny =
            { s with permissionResolved := true,
                     hasNoMicPermissions := true } := by
          simp [step, hr]
        rw [hstep]
        refine ⟨h1, h2, h3, h4, h5, ?_, ?_, ?_, ?_, ?_⟩ <;> simp_all
  | initWaveSurfer containerPresent =>
      cases containerPresent with
      | false =>
          have hstep : step s (.initWaveSurfer false) = s := by simp [step]
          rw [hstep]
          exact ⟨h1, h2, h3, h4, h5, h6, h7, h8, h9, h10⟩
      | true =>
          have hstep : step s (.initWaveSurfer true) =
              { s with wavesurfer := true, recordPlugin := true,
                       waveColor := "primary" } := by
            simp [step]
          rw [hstep]
          exact ⟨rfl, by simp, h3, h4, h5, h6, h7, h8, h9, h10⟩
  | timeUpdate ms =>
      by_cases hw : s.wavesurfer = true
      · have hstep : step s (.timeUpdate ms) =
            { s with progressTime := formatTime (ms * 1000) } := by
          simp [step, hw]
        rw [hstep]
        exact ⟨h1, h2, h3, h4, h5, h6, h7, h8, h9, h10⟩
      · have hstep : step s (.timeUpdate ms) = s := by simp [step, hw]
        rw [hstep]
        exact ⟨h1, h2, h3, h4, h5, h6, h7, h8, h9, h10⟩
  | recordProgress ms =>
      by_cases hw : s.recordPlugin = true
      · have hstep : step s (.recordProgress ms) =
            { s with recordingTime := formatTime ms } := by
          simp [step, hw]
        rw [hstep]
        exact ⟨h1, h2, h3, h4, h5, h6, h7, h8, h9, h10⟩
      · have hstep : step s (.recordProgress ms) = s := by simp [step, hw]
        rw [hstep]
        exact ⟨h1, h2, h3, h4, h5, h6, h7, h8, h9, h10⟩
  | clickPlayPause =>
      by_cases hw : s.wavesurfer = true
      · have hstep : step s .clickPlayPause =
            { s with shouldUpdatePlaybackTime := true } := by
          simp [step, hw]
        rw [hstep]
        exact ⟨h1, h2, h3, h4, h5, h6, h7, h8, h9, h10⟩
      · have hstep : step s .clickPlayPause = s := by simp [step, hw]
        rw [hstep]
        exact ⟨h1, h2, h3, h4, h5, h6, h7, h8, h9, h10⟩
  | startRecording =>
      by_cases hg : (s.recordPlugin && jsTruthyStr s.activeAudioDeviceId
          && s.wavesurfer) = true
      · simp only [Bool.and_eq_true] at hg
        obtain ⟨⟨hrp, hact⟩, hws⟩ := hg
        have hisSome : s.activeAudioDeviceId.isSome = true := by
          cases hv : s.activeAudioDeviceId with
          | none => rw [hv] at hact; simp [jsTruthyStr] at hact
          | some d => simp
        have hres := (h6 hisSome).1
        have hmic := (h6 hisSome).2
        have hstep : step s .startRecording =
            { s with waveColor := "primary", isRecording := true,
                     rerenderCount := s.rerenderCount + 1 } := by
          simp [step, hrp, hact, hws]
        rw [hstep]
        refine ⟨?_, ?_, h3, h4, h5, ?_, ?_, ?_, ?_, ?_⟩ <;> simp_all
      · have hstep : step s .startRecording = s := by simp [step, hg]
        rw [hstep]
        exact ⟨h1, h2, h3, h4, h5, h6, h7, h8, h9, h10⟩
  | stopRecording =>
      by_cases hg : (s.recordPlugin && s.isRecording) = true
      · simp only [Bool.and_eq_true] at hg
        obtain ⟨hrp, hrec⟩ := hg
        have hws : s.wavesurfer = true := h1 ▸ hrp
        have hmic : s.hasNoMicPermissions = false := by
          by_contra hm
          simp only [Bool.not_eq_false] at hm
          rw [h9 hm] at hrec
          exact Bool.false_ne_true hrec
        have hstep : step s .stopRecording =
            { s with isRecording := false,
                     recordingUrl := some s.nextUrlId,
                     nextUrlId := s.nextUrlId + 1,
                     pendingUploads := s.pendingUploads + 1,
                     waveColor := "#A5A5AA" } := by
          simp [step, hrp, hrec]
        rw [hstep]
        refine ⟨h1, ?_, ?_, ?_, ?_, h6, h7, h8, ?_, ?_⟩
        · simpa using hws
        · intro u hu
          simp only [Option.some.injEq] at hu
          subst hu
          intro hmem
          exact absurd (h5 _ hmem) (by omega)
        · intro u hu
          simp only [Option.some.injEq] at hu
          subst hu
          exact Nat.lt_succ_self _
        · intro u hu
          exact Nat.lt_succ_of_lt (h5 u hu)
        · simp
        · simp
      · have hstep : step s .stopRecording = s := by simp [step, hg]
        rw [hstep]
        exact ⟨h1, h2, h3, h4, h5, h6, h7, h8, h9, h10⟩
  | uploadSettled ups =>
      by_cases hp : s.pendingUploads = 0
      · have hstep : step s (.uploadSettled ups) = s := by simp [step, hp]
        rw [hstep]
        exact ⟨h1, h2, h3, h4, h5, h6, h7, h8, h9, h10⟩
      · cases hh : ups.head? with
        | none =>
            have hstep : step s (.uploadSettled ups) =
                { s with pendingUploads := s.pendingUploads - 1 } := by
              simp [step, hp, hh]
            rw [hstep]
            exact ⟨h1, h2, h3, h4, h5, h6, h7, h8, h9, h10⟩
        | some du =>
            by_cases ht : jsTruthyStr du = true
            · have hstep : step s (.uploadSettled ups) =
                  { s with pendingUploads := s.pendingUploads - 1,
                           deleteFileUrl := du } := by
                simp [step, hp, hh, ht]
              rw [hstep]
              exact ⟨h1, h2, h3, h4, h5, h6, h7, h8, h9, h10⟩
            · have hstep : step s (.uploadSettled ups) =
                  { s with pendingUploads := s.pendingUploads - 1 } := by
                simp [step, hp, hh, ht]
              rw [hstep]
              exact ⟨h1, h2, h3, h4, h5, h6, h7, h8, h9, h10⟩
  | handleClear =>
      cases hd : s.deleteFileUrl with
      | none =>
          have hstep : step s .handleClear = s := by simp [step, hd]
          rw [hstep]
          exact ⟨h1, h2, h3, h4, h5, h6, h7, h8, h9, h10⟩
      | some d =>
          by_cases hw : s.wavesurfer = true
          · have hstep : step s .handleClear =
                { s with recordingUrl := none,
                         deletedFiles := s.deletedFiles ++ [d],
                         progressTime := STARTING_TIME_STRING,
                         recordingTime := STARTING_TIME_STRING,
                         deleteFileUrl := none,
                         widgetClearCount := s.widgetClearCount + 1,
                         shouldUpdatePlaybackTime := false,
                         revokedUrls :=
                           match s.recordingUrl with
                           | some u => s.revokedUrls ++ [u]
                           | none => s.revokedUrls } := by
              simp [step, hd, hw]
            rw [hstep]
            refine ⟨h1, by simp, by simp, by simp, ?_, h6, h7, h8, h9, h10⟩
            intro u hu
            cases hru : s.recordingUrl with
            | none =>
                rw [hru] at hu
                exact h5 u hu
            | some v =>
                rw [hru] at hu
                simp only [List.mem_append, List.mem_singleton] at hu
                rcases hu with hu | hu
                · exact h5 u hu
                · subst hu
                  exact h4 u hru
          · have hstep : step s .handleClear = s := by simp [step, hd, hw]
            rw [hstep]
            exact ⟨h1, h2, h3, h4, h5, h6, h7, h8, h9, h10⟩

theorem inv_run (events : List Event) : Inv (run events) := by
  have key : ∀ (l : List Event) (s : CoordinatorState), Inv s →
      Inv (l.foldl step s) := by
    intro l
    induction l with
    | nil => intro s hs; simpa using hs
    | cons e rest ih =>
        intro s hs
        exact ih (step s e) (inv_step s e hs)
  exact key events initState inv_init

theorem inv_reachable (s : CoordinatorState) (hs : Reachable s) : Inv s := by
  obtain ⟨events, hev⟩ := hs
  exact hev ▸ inv_run events

/-- A state whose status is `Recorded` has permission granted, the
permission promise resolved, no recording in progress, and a live
artifact reference. -/
theorem status_recorded_elim (s : CoordinatorState)
    (hst : status s = .Recorded) :
    s.hasNoMicPermissions = false ∧ s.permissionResolved = true ∧
      s.isRecording = false ∧ s.recordingUrl.isSome = true := by
  unfold status at hst
  split_ifs at hst
  all_goals simp_all

/-- C1 counterexample: after mount, grant, backend init and two complete
record cycles with no clear, two object URLs have been created and none
revoked, so two CapturedArtifacts are live at once — the record-completion
handler never revokes the superseded artifact's backing reference. -/
theorem C1_counterexample :
    (liveArtifacts (run [.permGrant ["d0"], .initWaveSurfer true,
      .startRecording, .stopRecording, .startRecording,
      .stopRecording])).length = 2 := by decide

/-- C1 (amended): artifact references are revoked only by `handleClear`;
every other event — in particular the record-completion handling triggered
by `stopRecording`, which creates the new artifact reference — leaves the
set of revoked references unchanged, so superseded artifacts stay live
until a clear. -/
theorem C1_amended_revoke_only_on_clear (s : CoordinatorState) (e : Event)
    (h : e ≠ Event.handleClear) :
    (step s e).revokedUrls = s.revokedUrls := by
  cases e with
  | handleClear => exact absurd rfl h
  | permGrant devices =>
      by_cases hr : s.permissionResolved = true
      · simp [step, hr]
      · cases devices <;> simp [step, hr]
  | uploadSettled ups =>
      by_cases hp : s.pendingUploads = 0
      · simp [step, hp]
      · cases hh : ups.head? with
        | none => simp [step, hp, hh]
        | some du => by_cases ht : jsTruthyStr du = true <;>
            simp [step, hp, hh, ht]
  | permDeny => by_cases hr : s.permissionResolved = true <;> simp [step, hr]
  | initWaveSurfer c => cases c <;> simp [step]
  | timeUpdate ms => by_cases hw : s.wavesurfer = true <;> simp [step, hw]
  | recordProgress ms =>
      by_cases hw : s.recordPlugin = true <;> simp [step, hw]
  | clickPlayPause => by_cases hw : s.wavesurfer = true <;> simp [step, hw]
  | startRecording =>
      by_cases hg : (s.recordPlugin && jsTruthyStr s.activeAudioDeviceId
          && s.wavesurfer) = true <;> simp [step, hg]
  | stopRecording =>
      by_cases hg : (s.recordPlugin && s.isRecording) = true
      · simp [step, hg]
      · simp [step, hg]

/-- C1 witness for the amended claim: the record-completion step of a
re-recording (after a first upload already succeeded) leaves the revoked
set unchanged. -/
theorem C1_amended_witness :
    (step (run [.permGrant ["d0"], .initWaveSurfer true, .startRecording,
        .stopRecording, .uploadSettled [some "del0"], .startRecording])
      .stopRecording).revokedUrls =
    (run [.permGrant ["d0"], .initWaveSurfer true, .startRecording,
        .stopRecording, .uploadSettled [some "del0"],
        .startRecording]).revokedUrls :=
  C1_amended_revoke_only_on_clear _ _ (by decide)

/-- C2: when no UploadHandle (deletion URL) exists, `handleClear` is a
complete no-op — the state is unchanged, so nothing is revoked, no deletion
request is issued and no widget state is reset. -/
theorem C2_clear_noop_without_handle (s : CoordinatorState)
    (h : s.deleteFileUrl = none) : step s .handleClear = s := by
  simp [step, h]

/-- C2 witness: clearing with an initialized backend but no UploadHandle
changes nothing. -/
theorem C2_witness :
    step { initState with wavesurfer := true } .handleClear
      = { initState with wavesurfer := true } :=
  C2_clear_noop_without_handle _ rfl

/-- C3: from a reachable `Recorded` state holding an UploadHandle,
`handleClear` yields status `Ready`, resets both duration displays to
"00:00", removes the UploadHandle and revokes the local artifact
reference. -/
theorem C3_clear_from_recorded (s : CoordinatorState) (u : Nat)
    (hreach : Reachable s) (hst : status s = .Recorded)
    (hurl : s.recordingUrl = some u)
    (hdel : s.deleteFileUrl.isSome = true) :
    status (step s .handleClear) = .Ready ∧
      (step s .handleClear).progressTime = "00:00" ∧
      (step s .handleClear).recordingTime = "00:00" ∧
      (step s .handleClear).deleteFileUrl = none ∧
      u ∈ (step s .handleClear).revokedUrls := by
  have hinv := inv_reachable s hreach
  have hws : s.wavesurfer = true := hinv.ws_of_url (by simp [hurl])
  obtain ⟨hmic, hres, hrec, -⟩ := status_recorded_elim s hst
  obtain ⟨d, hd⟩ := Option.isSome_iff_exists.mp hdel
  have hstep : step s .handleClear =
      { s with recordingUrl := none,
               deletedFiles := s.deletedFiles ++ [d],
               progressTime := STARTING_TIME_STRING,
               recordingTime := STARTING_TIME_STRING,
               deleteFileUrl := none,
               widgetClearCount := s.widgetClearCount + 1,
               shouldUpdatePlaybackTime := false,
               revokedUrls :=
                 match s.recordingUrl with
                 | some v => s.revokedUrls ++ [v]
                 | none => s.revokedUrls } := by
    simp [step, hd, hws]
  rw [hstep]
  refine ⟨?_, rfl, rfl, rfl, ?_⟩
  · simp [status, hmic, hres, hrec]
  · simp [hurl]

/-- C3 witness: record, upload successfully, then clear — the state is
`Ready`, both time codes read "00:00", the handle is gone and URL 0 is
revoked. -/
theorem C3_witness :
    status (step (run [.permGrant ["d0"], .initWaveSurfer true,
        .startRecording, .stopRecording, .uploadSettled [some "del0"]])
      .handleClear) = .Ready ∧
    (step (run [.permGrant ["d0"], .initWaveSurfer true, .startRecording,
        .stopRecording, .uploadSettled [some "del0"]])
      .handleClear).progressTime = "00:00" ∧
    (step (run [.permGrant ["d0"], .initWaveSurfer true, .startRecording,
        .stopRecording, .uploadSettled [some "del0"]])
      .handleClear).recordingTime = "00:00" ∧
    (step (run [.permGrant ["d0"], .initWaveSurfer true, .startRecording,
        .stopRecording, .uploadSettled [some "del0"]])
      .handleClear).deleteFileUrl = none ∧
    0 ∈ (step (run [.permGrant ["d0"], .initWaveSurfer true,
        .startRecording, .stopRecording, .uploadSettled [some "del0"]])
      .handleClear).revokedUrls :=
  C3_clear_from_recorded _ 0
    ⟨[.permGrant ["d0"], .initWaveSurfer true, .startRecording,
      .stopRecording, .uploadSettled [some "del0"]], rfl⟩
    (by decide) (by decide) (by decide)

/-- C4: when the permission promise resolves on the grant branch, the
device catalog is stored and the device at index 0 becomes the active
device (`devices.head?`); in particular an empty catalog selects no active
device. -/
theorem C4_grant_selects_first_device (s : CoordinatorState)
    (devices : List String) (hreach : Reachable s)
    (hr : s.permissionResolved = false) :
    (step s (.permGrant devices)).availableAudioDevices = devices ∧
      (step s (.permGrant devices)).activeAudioDeviceId = devices.head? := by
  have hactive := (inv_reachable s hreach).unresolved_active hr
  cases devices <;> simp [step, hr, hactive]

/-- C4 witness: granting with two devices found selects the first; both
conjuncts evaluate on the freshly mounted state. -/
theorem C4_witness :
    (step (run []) (.permGrant ["d0", "d1"])).availableAudioDevices
        = ["d0", "d1"] ∧
      (step (run []) (.permGrant ["d0", "d1"])).activeAudioDeviceId
        = some "d0" :=
  C4_grant_selects_first_device _ _ ⟨[], rfl⟩ rfl

/-- C5: after the permission request was denied, the status is
`NoPermission`, `startRecording` is a complete no-op (no recording starts),
and the status after invoking it is still `NoPermission`. -/
theorem C5_denied_start_noop (s : CoordinatorState) (hreach : Reachable s)
    (hmic : s.hasNoMicPermissions = true) :
    status s = .NoPermission ∧ step s .startRecording = s ∧
      status (step s .startRecording) = .NoPermission := by
  have hinv := inv_reachable s hreach
  have hactive : s.activeAudioDeviceId = none := by
    cases hv : s.activeAudioDeviceId with
    | none => rfl
    | some d =>
        exact absurd (hinv.active_resolved (by simp [hv])).2
          (by simp [hmic])
  have hnoop : step s .startRecording = s := by
    simp [step, hactive, jsTruthyStr]
  exact ⟨by simp [status, hmic], hnoop,
    by rw [hnoop]; simp [status, hmic]⟩

/-- C5 witness: deny the permission request, then invoke
`startRecording` — the no-permission state persists. -/
theorem C5_witness :
    status (run [.permDeny]) = .NoPermission ∧
      step (run [.permDeny]) .startRecording = run [.permDeny] ∧
      status (step (run [.permDeny]) .startRecording) = .NoPermission :=
  C5_denied_start_noop _ ⟨[.permDeny], rfl⟩ rfl

/-- C6 counterexample: from a reachable `Recorded` state with an active
device, `startRecording` is not a no-op and moves the status to
`Recording` — refuting that recording can only be started from `Ready`. -/
theorem C6_counterexample :
    status (run [.permGrant ["d0"], .initWaveSurfer true, .startRecording,
        .stopRecording]) = .Recorded ∧
      step (run [.permGrant ["d0"], .initWaveSurfer true, .startRecording,
        .stopRecording]) .startRecording ≠
        run [.permGrant ["d0"], .initWaveSurfer true, .startRecording,
          .stopRecording] ∧
      status (step (run [.permGrant ["d0"], .initWaveSurfer true,
        .startRecording, .stopRecording]) .startRecording) = .Recording := by
  refine ⟨by decide, by decide, by decide⟩

/-- C6 (amended): `startRecording` starts a recording (status becomes
`Recording`) exactly when the record plugin and wavesurfer backend exist
and a device is selected — from `Ready` or `Recorded` alike (re-record);
when any of the three is missing it is a complete no-op. -/
theorem C6_amended_start_guard (s : CoordinatorState)
    (hreach : Reachable s) :
    ((s.recordPlugin && jsTruthyStr s.activeAudioDeviceId
          && s.wavesurfer) = true →
        status (step s .startRecording) = .Recording) ∧
      ((s.recordPlugin && jsTruthyStr s.activeAudioDeviceId
          && s.wavesurfer) = false →
        step s .startRecording = s) := by
  have hinv := inv_reachable s hreach
  constructor
  · intro hg
    simp only [Bool.and_eq_true] at hg
    obtain ⟨⟨hrp, hact⟩, hws⟩ := hg
    have hisSome : s.activeAudioDeviceId.isSome = true := by
      cases hv : s.activeAudioDeviceId with
      | none => rw [hv] at hact; simp [jsTruthyStr] at hact
      | some d => simp
    have hres := (hinv.active_resolved hisSome).1
    have hmic := (hinv.active_resolved hisSome).2
    have hstep : step s .startRecording =
        { s with waveColor := "primary", isRecording := true,
                 rerenderCount := s.rerenderCount + 1 } := by
      simp [step, hrp, hact, hws]
    rw [hstep]
    simp [status, hmic, hres]
  · intro hg
    simp [step, hg]

/-- C6 witness for the amended claim: with backend initialized and a
device selected, `startRecording` enters `Recording`. -/
theorem C6_amended_witness :
    status (step (run [.permGrant ["d0"], .initWaveSurfer true])
      .startRecording) = .Recording :=
  (C6_amended_start_guard _
    ⟨[.permGrant ["d0"], .initWaveSurfer true], rfl⟩).1 (by decide)

/-- C7: when the upload for the current recording settles with no
successful upload, a reachable `Recorded` state with no UploadHandle keeps
status `Recorded`, still has no handle (clear affordance hidden), and
retains the live, unrevoked artifact reference. -/
theorem C7_upload_failure_keeps_recorded (s : CoordinatorState) (u : Nat)
    (hreach : Reachable s) (hst : status s = .Recorded)
    (hurl : s.recordingUrl = some u) (hdel : s.deleteFileUrl = none) :
    status (step s (.uploadSettled [])) = .Recorded ∧
      (step s (.uploadSettled [])).deleteFileUrl = none ∧
      clearAffordanceShown (step s (.uploadSettled [])) = false ∧
      (step s (.uploadSettled [])).recordingUrl = some u ∧
      u ∉ (step s (.uploadSettled [])).revokedUrls := by
  have hinv := inv_reachable s hreach
  have hnr := hinv.url_not_revoked u hurl
  by_cases hp : s.pendingUploads = 0
  · have hstep : step s (.uploadSettled []) = s := by simp [step, hp]
    rw [hstep]
    exact ⟨hst, hdel, by simp [clearAffordanceShown, hdel, jsTruthyStr],
      hurl, hnr⟩
  · have hstep : step s (.uploadSettled []) =
        { s with pendingUploads := s.pendingUploads - 1 } := by
      simp [step, hp]
    rw [hstep]
    obtain ⟨hmic, hres, hrec, hsome⟩ := status_recorded_elim s hst
    refine ⟨?_, hdel, by simp [clearAffordanceShown, hdel, jsTruthyStr],
      hurl, hnr⟩
    simp [status, hmic, hres, hrec, hsome]

/-- C7 witness: record, let the upload settle with no successful uploads —
the widget still shows a `Recorded`, playable artifact and no clear
affordance. -/
theorem C7_witness :
    status (step (run [.permGrant ["d0"], .initWaveSurfer true,
        .startRecording, .stopRecording]) (.uploadSettled [])) = .Recorded ∧
      (step (run [.permGrant ["d0"], .initWaveSurfer true, .startRecording,
        .stopRecording]) (.uploadSettled [])).deleteFileUrl = none ∧
      clearAffordanceShown (step (run [.permGrant ["d0"],
        .initWaveSurfer true, .startRecording, .stopRecording])
        (.uploadSettled [])) = false ∧
      (step (run [.permGrant ["d0"], .initWaveSurfer true, .startRecording,
        .stopRecording]) (.uploadSettled [])).recordingUrl = some 0 ∧
      0 ∉ (step (run [.permGrant ["d0"], .initWaveSurfer true,
        .startRecording, .stopRecording])
        (.uploadSettled [])).revokedUrls :=
  C7_upload_failure_keeps_recorded _ 0
    ⟨[.permGrant ["d0"], .initWaveSurfer true, .startRecording,
      .stopRecording], rfl⟩ (by decide) (by decide) (by decide)

/-- C8: the claimed guard does not hold in the code.  After a successful
first upload, re-recording leaves the stale deletion URL in place, so
while the second recording's upload is still in flight the clear
affordance is shown and `handleClear` actually executes (deleting the old
handle and revoking the new artifact) — clear is not prevented from
running before the current upload settles. -/
theorem C8_bug_clear_enabled_during_upload :
    (run [.permGrant ["d0"], .initWaveSurfer true, .startRecording,
        .stopRecording, .uploadSettled [some "del0"], .startRecording,
        .stopRecording]).pendingUploads = 1 ∧
      clearAffordanceShown (run [.permGrant ["d0"], .initWaveSurfer true,
        .startRecording, .stopRecording, .uploadSettled [some "del0"],
        .startRecording, .stopRecording]) = true ∧
      step (run [.permGrant ["d0"], .initWaveSurfer true, .startRecording,
        .stopRecording, .uploadSettled [some "del0"], .startRecording,
        .stopRecording]) .handleClear ≠
        run [.permGrant ["d0"], .initWaveSurfer true, .startRecording,
          .stopRecording, .uploadSettled [some "del0"], .startRecording,
          .stopRecording] := by
  refine ⟨by decide, by decide, by decide⟩

/-- C9: an upload response whose `successfulUploads` is empty, or whose
first entry carries no (or an empty, hence falsy) deletion URL, stores no
UploadHandle and leaves the component state unchanged apart from the
settled promise — `successfulUploads[0]` on an empty list is `undefined`
and the `upload && ...` guard absorbs it without an error. -/
theorem C9_no_delete_url_no_handle (s : CoordinatorState)
    (ups : List (Option String))
    (h : ups.head? = none ∨ ups.head? = some none
      ∨ ups.head? = some (some "")) :
    (step s (.uploadSettled ups)).deleteFileUrl = s.deleteFileUrl ∧
      { step s (.uploadSettled ups) with
          pendingUploads := s.pendingUploads } = s := by
  by_cases hp : s.pendingUploads = 0
  · have hstep : step s (.uploadSettled ups) = s := by simp [step, hp]
    rw [hstep]
    exact ⟨rfl, rfl⟩
  · rcases h with hh | hh | hh
    · have hstep : step s (.uploadSettled ups) =
          { s with pendingUploads := s.pendingUploads - 1 } := by
        simp [step, hp, hh]
      rw [hstep]
      exact ⟨rfl, rfl⟩
    · have hstep : step s (.uploadSettled ups) =
          { s with pendingUploads := s.pendingUploads - 1 } := by
        simp [step, hp, hh, jsTruthyStr]
      rw [hstep]
      exact ⟨rfl, rfl⟩
    · have hstep : step s (.uploadSettled ups) =
          { s with pendingUploads := s.pendingUploads - 1 } := by
        simp [step, hp, hh, jsTruthyStr]
      rw [hstep]
      exact ⟨rfl, rfl⟩

/-- C9 witness: an empty `successfulUploads` list settling after a
recording leaves the state (up to the settled promise) unchanged and
stores no handle. -/
theorem C9_witness :
    (step (run [.permGrant ["d0"], .initWaveSurfer true, .startRecording,
        .stopRecording]) (.uploadSettled [])).deleteFileUrl =
      (run [.permGrant ["d0"], .initWaveSurfer true, .startRecording,
        .stopRecording]).deleteFileUrl ∧
    { step (run [.permGrant ["d0"], .initWaveSurfer true, .startRecording,
        .stopRecording]) (.uploadSettled []) with
        pendingUploads := (run [.permGrant ["d0"], .initWaveSurfer true,
          .startRecording, .stopRecording]).pendingUploads } =
      run [.permGrant ["d0"], .initWaveSurfer true, .startRecording,
        .stopRecording] :=
  C9_no_delete_url_no_handle _ [] (Or.inl rfl)

/-- C10: even with an UploadHandle present, `handleClear` is a complete
no-op while the backend is uninitialized (`wavesurfer` null): the guard
requires both the handle and the backend. -/
theorem C10_clear_noop_without_backend (s : CoordinatorState)
    (h : s.wavesurfer = false) : step s .handleClear = s := by
  cases hd : s.deleteFileUrl <;> simp [step, hd, h]

/-- C10 witness: a state holding a deletion URL but no backend instance is
unchanged by `handleClear`. -/
theorem C10_witness :
    step { initState with deleteFileUrl := some "del0" } .handleClear
      = { initState with deleteFileUrl := some "del0" } :=
  C10_clear_noop_without_backend _ rfl

end AudioInputSpec
